import Mathlib

/-!
Verification of the API gateway (gateway/main.py, gateway/auth.py,
gateway/middleware.py): a shallow embedding of the request forwarder, the
exception handlers, the JWT-based token authority, the credential verifier
and the logging middleware, with theorems settling the spec claims.
-/

namespace Gateway

/-- A JSON value, as produced by response.json() and carried in
HTTPException detail payloads and JSONResponse contents. -/
inductive Json where
  | null : Json
  | bool (b : Bool) : Json
  | num (n : Int) : Json
  | str (s : String) : Json
  | arr (elems : List Json) : Json
  | obj (fields : List (String × Json)) : Json

/-- Python dict .get(key): some value when the JSON value is an object with
the key, none otherwise (a non-object has no .get, modelled separately). -/
def Json.get? (j : Json) (key : String) : Option Json :=
  match j with
  | .obj fields => fields.lookup key
  | _ => none

/-- Whether a JSON value is a string literal. -/
def Json.isStr : Json → Bool
  | .str _ => true
  | _ => false

/-- Whether a JSON value is an object (a Python dict after parsing). -/
def Json.isObj : Json → Bool
  | .obj _ => true
  | _ => false

mutual

/-- All string leaves occurring anywhere in a JSON value (values only, not
keys): used to ask whether a body mentions a given piece of text. -/
def Json.strings : Json → List String
  | .null => []
  | .bool _ => []
  | .num _ => []
  | .str s => [s]
  | .arr elems => stringsOfList elems
  | .obj fields => stringsOfFields fields

/-- String leaves of a list of JSON values. -/
def stringsOfList : List Json → List String
  | [] => []
  | j :: rest => j.strings ++ stringsOfList rest

/-- String leaves of the values of a JSON object's field list. -/
def stringsOfFields : List (String × Json) → List String
  | [] => []
  | (_, j) :: rest => j.strings ++ stringsOfFields rest

end

/-- Whether the list of characters sub occurs contiguously in s. -/
def hasSub (s sub : List Char) : Bool :=
  match s with
  | [] => sub.isEmpty
  | c :: rest => sub.isPrefixOf (c :: rest) || hasSub rest sub

/-- Whether sub occurs as a substring of s. -/
def containsSubstr (s sub : String) : Bool :=
  hasSub s.toList sub.toList

/-- fastapi.HTTPException: a status code and a detail payload (a string or
a dict in the gateway's code). -/
structure HTTPErr where
  status_code : Nat
  detail : Json

/-- The static service registry SERVICES of gateway/main.py. -/
def SERVICES : List (String × String) :=
  [("student", "http://localhost:8001"), ("course", "http://localhost:8002")]

/-- A backend HTTP response as seen through httpx: status code, raw text,
and the result of response.json() (none when parsing raises). -/
structure BackendResponse where
  status : Nat
  text : String
  json? : Option Json

/-- The outcome of the single outbound httpx call in forward_request:
either a response, or one of the exception classes the code catches
(httpx.TimeoutException, httpx.ConnectError, other httpx.RequestError with
its str(e), or any other unanticipated exception). -/
inductive TransportResult where
  | ok (resp : BackendResponse)
  | timeoutExc
  | connectExc
  | requestExc (msg : String)
  | otherExc

/-- What forward_request produces for the router: a raised HTTPException or
a JSONResponse with a status code and JSON content. -/
inductive FwdResult where
  | httpError (e : HTTPErr)
  | success (status : Nat) (content : Json)

/-- The detail dict of the except-Exception branch of forward_request. -/
def unexpectedDetail (service : String) : Json :=
  .obj [("error", .str "Internal Server Error"),
        ("message", .str "An unexpected error occurred while processing your request"),
        ("service", .str service)]

/-- forward_request of gateway/main.py, as a function of the logical
service name, backend path, HTTP method and the result of the one outbound
transport call. The first component records whether the outbound call was
made (network I/O attempted); the second is the produced result. Mirrors
the source: registry check (404), method dispatch (405 for unknown
methods, raised before any outbound call), backend status >= 400 handling
(including the AttributeError that error_detail.get raises when the parsed
JSON body is not an object, which falls into the except-Exception branch),
success JSON/text wrapping, and the four except branches. -/
def forward_request (service path method : String) (t : TransportResult) :
    Bool × FwdResult :=
  match SERVICES.lookup service with
  | none =>
    (false, .httpError ⟨404,
      .obj [("error", .str "Service Not Found"),
            ("message", .str ("The requested service '" ++ service ++ "' is not available")),
            ("available_services", .arr (SERVICES.map fun p => .str p.1))]⟩)
  | some base =>
    let url := base ++ path
    if method = "GET" ∨ method = "POST" ∨ method = "PUT" ∨ method = "DELETE" then
      match t with
      | .ok resp =>
        if resp.status ≥ 400 then
          let error_detail : Json :=
            match resp.json? with
            | some j => j
            | none => .obj [("detail", .str (if resp.text = "" then "Unknown error" else resp.text))]
          match error_detail with
          | .obj fields =>
            (true, .httpError ⟨resp.status,
              .obj [("error", .str ("Service Error (" ++ toString resp.status ++ ")")),
                    ("message", (fields.lookup "detail").getD
                      (.str "An error occurred in the microservice")),
                    ("service", .str service),
                    ("path", .str path)]⟩)
          | _ => (true, .httpError ⟨500, unexpectedDetail service⟩)
        else
          let response_data : Json :=
            if resp.text = "" then .null
            else match resp.json? with
              | some j => j
              | none => .obj [("raw", .str resp.text)]
          (true, .success resp.status response_data)
      | .timeoutExc =>
        (true, .httpError ⟨504,
          .obj [("error", .str "Gateway Timeout"),
                ("message", .str ("The " ++ service ++ " service did not respond in time")),
                ("service", .str service),
                ("timeout", .str "30 seconds")]⟩)
      | .connectExc =>
        (true, .httpError ⟨503,
          .obj [("error", .str "Service Unavailable"),
                ("message", .str ("Unable to connect to " ++ service ++
                  " service. Please check if the service is running.")),
                ("service", .str service),
                ("url", .str url)]⟩)
      | .requestExc m =>
        (true, .httpError ⟨502,
          .obj [("error", .str "Bad Gateway"),
                ("message", .str ("Error communicating with " ++ service ++ " service")),
                ("service", .str service),
                ("error_details", .str m)]⟩)
      | .otherExc => (true, .httpError ⟨500, unexpectedDetail service⟩)
    else
      (false, .httpError ⟨405,
        .obj [("error", .str "Method Not Allowed"),
              ("message", .str ("HTTP method '" ++ method ++ "' is not supported")),
              ("allowed_methods", .arr [.str "GET", .str "POST", .str "PUT", .str "DELETE"])]⟩)

/-- http_exception_handler of gateway/main.py: renders a raised
HTTPException as the externally visible (status, JSON body) pair. -/
def http_exception_handler (path : String) (exc : HTTPErr) : Nat × Json :=
  (exc.status_code,
   .obj [("error",
          match exc.detail with
          | .obj fields => (fields.lookup "error").getD (.str "Error")
          | _ => .str "Error"),
         ("message",
          match exc.detail with
          | .obj fields => (fields.lookup "message").getD exc.detail
          | d => d),
         ("status_code", .num exc.status_code),
         ("path", .str path)])

/-- general_exception_handler of gateway/main.py: the response for any
exception that is not an HTTPException. -/
def general_exception_handler (path : String) : Nat × Json :=
  (500,
   .obj [("error", .str "Internal Server Error"),
         ("message", .str "An unexpected error occurred"),
         ("status_code", .num 500),
         ("path", .str path)])

/-- The shape every gateway failure body is claimed to have: an object
with exactly the keys error (a string), message, status_code (equal to the
response status) and path (the request path), in that order. -/
def shapeOK (path : String) (r : Nat × Json) : Bool :=
  match r.2 with
  | .obj [("error", .str _), ("message", _), ("status_code", .num n), ("path", .str p)] =>
    n = (r.1 : Int) && p = path
  | _ => false

/-- The HTTPException the login route raises on failed authentication
(gateway/main.py, login). -/
def login_failed_error : HTTPErr :=
  ⟨401, .obj [("error", .str "Authentication Failed"),
              ("message", .str "Invalid username or password")]⟩

/-! ## Token authority and credential verifier (gateway/auth.py) -/

/-- The process-wide signing secret (default of SECRET_KEY in auth.py). -/
def SECRET_KEY : String := "your-secret-key-change-this-in-production"

/-- ACCESS_TOKEN_EXPIRE_MINUTES of auth.py. -/
def ACCESS_TOKEN_EXPIRE_MINUTES : Nat := 30

/-- The password-hashing capability (passlib CryptContext with bcrypt): an
external collaborator, injected. hash maps a plain password to its hash;
verify checks a plain password against a stored hash. -/
structure HashCap where
  hash : String → String
  verify : String → String → Bool

/-- The bcrypt contract the gateway relies on: verify accepts exactly the
password that was hashed, and a hash is never textually equal to the
password it hashes (bcrypt hashes carry a fixed prefix and salt). -/
def HashCap.Sound (cap : HashCap) : Prop :=
  (∀ p q : String, cap.verify p (cap.hash q) = true ↔ p = q) ∧
  (∀ p : String, cap.hash p ≠ p)

/-- A concrete hashing capability used to evaluate the model on closed
inputs; it satisfies the bcrypt contract HashCap.Sound. -/
def mockHash : HashCap where
  hash s := "$2b$12$" ++ s
  verify p h := h = "$2b$12$" ++ p

/-- One record of USERS_DB. -/
structure UserRec where
  username : String
  hashed_password : String
  role : String

/-- The principal dict authenticate_user and get_current_user return. -/
structure Principal where
  username : String
  role : String
deriving DecidableEq

/-- _init_users_db of auth.py: the registry built on first use. On the
normal path (bcrypt initialized, bcryptOk = true) passwords are stored
hashed; on the fallback path they are stored as plain text. -/
def init_users_db (cap : HashCap) (bcryptOk : Bool) : List (String × UserRec) :=
  if bcryptOk then
    [("admin", ⟨"admin", cap.hash "admin123", "admin"⟩),
     ("user", ⟨"user", cap.hash "user123", "user"⟩)]
  else
    [("admin", ⟨"admin", "admin123", "admin"⟩),
     ("user", ⟨"user", "user123", "user"⟩)]

/-- authenticate_user of auth.py over an already-initialized registry:
lookup, then the plain-text-fallback equality check against the stored
hashed_password field, then bcrypt verification. -/
def authenticate_user (cap : HashCap) (db : List (String × UserRec))
    (username password : String) : Option Principal :=
  match db.lookup username with
  | none => none
  | some user =>
    if user.hashed_password = password then
      some ⟨user.username, user.role⟩
    else if cap.verify password user.hashed_password then
      some ⟨user.username, user.role⟩
    else none

/-- The claims carried by a JWT in this gateway: the optional sub and role
entries of the data dict, and the absolute expiry timestamp (seconds). -/
structure Claims where
  sub : Option String
  role : Option String
  exp : Nat
deriving DecidableEq

/-- A bearer token as presented to the gateway: either a well-formed JWT
(its claims and the key it was signed with) or an unparseable string. -/
inductive PresentedToken where
  | signed (claims : Claims) (key : String)
  | malformed

/-- create_access_token of auth.py: copies the data, adds exp = now +
expires_delta (seconds; defaulting to ACCESS_TOKEN_EXPIRE_MINUTES), and
signs with SECRET_KEY. -/
def create_access_token (sub role : String) (expires_delta : Option Nat)
    (now : Nat) : PresentedToken :=
  .signed { sub := some sub, role := some role,
            exp := now + expires_delta.getD (ACCESS_TOKEN_EXPIRE_MINUTES * 60) }
    SECRET_KEY

/-- jose jwt.decode: fails (JWTError) on a malformed token, a signature
made with a different key, or an expired token (now is not before exp);
otherwise yields the payload. -/
def jwt_decode (tok : PresentedToken) (key : String) (now : Nat) :
    Option Claims :=
  match tok with
  | .malformed => none
  | .signed claims k =>
    if k = key then
      if now < claims.exp then some claims else none
    else none

/-- The credentials_exception of get_current_user in auth.py. -/
def credentials_exception : HTTPErr :=
  ⟨401, .str "Could not validate credentials"⟩

/-- get_current_user of auth.py: decode the token (any JWTError raises
credentials_exception), require a sub claim, require the subject to be a
key of the user registry, and return the registry entry's username and
role. The registry state at verification time is a parameter (it is the
module global USERS_DB, empty before lazy initialization). -/
def get_current_user (db : List (String × UserRec)) (now : Nat)
    (tok : PresentedToken) : Except HTTPErr Principal :=
  match jwt_decode tok SECRET_KEY now with
  | none => .error credentials_exception
  | some payload =>
    match payload.sub with
    | none => .error credentials_exception
    | some username =>
      match db.lookup username with
      | none => .error credentials_exception
      | some user => .ok ⟨user.username, user.role⟩

/-! ## Logging middleware (gateway/middleware.py) -/

/-- The request data LoggingMiddleware reads: method, path, client address
when available, and query parameters. The body is never read. -/
structure Request where
  method : String
  path : String
  client : Option String
  query_params : List (String × String)

/-- A response as the middleware sees it: status code and body. -/
structure Response where
  status_code : Nat
  body : Json

/-- One structured log record emitted by LoggingMiddleware. -/
inductive LogEvent where
  | request (method path client : String) (query : List (String × String))
  | response (method path : String) (status : Nat) (elapsed : Nat)
  | failure (method path errText : String) (elapsed : Nat)

/-- LoggingMiddleware.dispatch of gateway/middleware.py: log the request
line (client defaulting to unknown), run the rest of the pipeline, then
either log the exception and re-raise it, or log the response line and
return the response unchanged. Exceptions are modelled as the str(e) the
log line carries; start and end times are parameters. -/
def LoggingMiddleware.dispatch (startTime endTime : Nat) (req : Request)
    (call_next : Request → Except String Response) :
    List LogEvent × Except String Response :=
  let reqLog := LogEvent.request req.method req.path (req.client.getD "unknown")
    req.query_params
  match call_next req with
  | .error e =>
    ([reqLog, .failure req.method req.path e (endTime - startTime)], .error e)
  | .ok response =>
    ([reqLog, .response req.method req.path response.status_code
        (endTime - startTime)], .ok response)

/-! ## Theorems -/

/-- The mock hashing capability obeys the bcrypt contract: verification
accepts exactly the hashed password, and no hash equals its input. -/
theorem mockHash_sound : mockHash.Sound := by
  refine ⟨fun p q => ?_, fun p h => ?_⟩
  · simp only [mockHash, decide_eq_true_eq]
    constructor
    · intro h
      have h2 := congrArg String.data h
      simp at h2
      exact (String.ext h2).symm
    · intro h
      rw [h]
  · have h2 := congrArg String.length h
    simp only [mockHash, String.length_append] at h2
    have h3 : "$2b$12$".length = 7 := rfl
    omega

/-- Every record found in the initialized user registry carries the
username it is keyed under. -/
theorem init_users_db_lookup (cap : HashCap) (b : Bool) (username : String)
    (u : UserRec)
    (hu : (init_users_db cap b).lookup username = some u) :
    u.username = username := by
  cases b <;> simp [init_users_db, List.lookup] at hu <;>
    split at hu <;> try split at hu
  all_goals simp_all
  all_goals (cases hu; rfl)

/-- Decoding a freshly issued token with the issuing key before its expiry
yields exactly the claims that were embedded. -/
theorem jwt_decode_create (sub role : String) (d now : Nat) (hd : 0 < d) :
    jwt_decode (create_access_token sub role (some d) now) SECRET_KEY now =
      some ⟨some sub, some role, now + d⟩ := by
  simp [create_access_token, jwt_decode]
  omega

/-- C2: for every principal (username, role) in the initialized user
registry, a token issued by create_access_token with sub = username and
that role, passed immediately (at issue time, before expiry) to
get_current_user over the same registry, yields a principal with the same
username and role. -/
theorem token_round_trip (cap : HashCap) (b : Bool) (username role : String)
    (u : UserRec) (now : Nat)
    (hu : (init_users_db cap b).lookup username = some u)
    (hrole : u.role = role) :
    get_current_user (init_users_db cap b) now
      (create_access_token username role
        (some (ACCESS_TOKEN_EXPIRE_MINUTES * 60)) now) =
      .ok ⟨username, role⟩ := by
  have hname := init_users_db_lookup cap b username u hu
  unfold get_current_user
  rw [jwt_decode_create username role (ACCESS_TOKEN_EXPIRE_MINUTES * 60) now (by decide)]
  simp [hu, hname, hrole]

/-- C2 witness: the admin principal of the registry round-trips through
issue and verify. -/
theorem token_round_trip_witness :
    (init_users_db mockHash true).lookup "admin" =
      some ⟨"admin", mockHash.hash "admin123", "admin"⟩ ∧
    get_current_user (init_users_db mockHash true) 0
      (create_access_token "admin" "admin"
        (some (ACCESS_TOKEN_EXPIRE_MINUTES * 60)) 0) = .ok ⟨"admin", "admin"⟩ :=
  ⟨rfl, token_round_trip mockHash true "admin" "admin"
    ⟨"admin", mockHash.hash "admin123", "admin"⟩ 0 rfl rfl⟩

/-- C3: with bcrypt initialized (normal mode), authenticate_user accepts
the registry password, rejects a wrong password and an unknown username —
but it also accepts the stored bcrypt hash itself as the password, because
the plain-text-fallback check compares the incoming password against the
hashed_password field even in normal mode. The hash is not the registry
password and bcrypt verification rejects it, yet authentication
succeeds. -/
theorem authenticate_accepts_stored_hash :
    mockHash.Sound ∧
    mockHash.hash "admin123" = "$2b$12$admin123" ∧
    "$2b$12$admin123" ≠ "admin123" ∧
    mockHash.verify "$2b$12$admin123" (mockHash.hash "admin123") = false ∧
    authenticate_user mockHash (init_users_db mockHash true) "admin"
      "$2b$12$admin123" = some ⟨"admin", "admin"⟩ ∧
    authenticate_user mockHash (init_users_db mockHash true) "admin"
      "admin123" = some ⟨"admin", "admin"⟩ ∧
    authenticate_user mockHash (init_users_db mockHash true) "admin"
      "wrong-password" = none ∧
    authenticate_user mockHash (init_users_db mockHash true) "nobody"
      "admin123" = none :=
  ⟨mockHash_sound, rfl, by decide, rfl, rfl, rfl, rfl, rfl⟩

/-- C4: a token signed with the wrong key, an expired token, and a
malformed token all produce the identical error of get_current_user, and
the externally visible response rendered by http_exception_handler is the
same 401 body with the generic message in all three cases. -/
theorem invalid_tokens_indistinguishable (db : List (String × UserRec))
    (now : Nat) (c c2 : Claims) (k path : String)
    (hk : k ≠ SECRET_KEY) (hexp : c2.exp ≤ now) :
    get_current_user db now (.signed c k) = .error credentials_exception ∧
    get_current_user db now (.signed c2 SECRET_KEY) = .error credentials_exception ∧
    get_current_user db now .malformed = .error credentials_exception ∧
    http_exception_handler path credentials_exception =
      (401, .obj [("error", .str "Error"),
                  ("message", .str "Could not validate credentials"),
                  ("status_code", .num 401),
                  ("path", .str path)]) := by
  refine ⟨?_, ?_, rfl, rfl⟩
  · simp [get_current_user, jwt_decode, hk]
  · simp [get_current_user, jwt_decode, Nat.not_lt.mpr hexp]

/-- C4 witness: a concrete bad-signature token, expired token and
malformed token all yield the same 401 response. -/
theorem invalid_tokens_indistinguishable_witness :
    ("wrong-key" ≠ SECRET_KEY ∧ (50 : Nat) ≤ 100) ∧
    (get_current_user [] 100 (.signed ⟨some "admin", some "admin", 200⟩ "wrong-key") =
        .error credentials_exception ∧
      get_current_user [] 100 (.signed ⟨some "admin", some "admin", 50⟩ SECRET_KEY) =
        .error credentials_exception ∧
      get_current_user [] 100 .malformed = .error credentials_exception ∧
      http_exception_handler "/gateway/auth/me" credentials_exception =
        (401, .obj [("error", .str "Error"),
                    ("message", .str "Could not validate credentials"),
                    ("status_code", .num 401),
                    ("path", .str "/gateway/auth/me")])) :=
  ⟨⟨by decide, by decide⟩,
    invalid_tokens_indistinguishable [] 100 ⟨some "admin", some "admin", 200⟩
      ⟨some "admin", some "admin", 50⟩ "wrong-key" "/gateway/auth/me"
      (by decide) (by decide)⟩

/-- C10: a correctly signed, unexpired token whose subject is not a key of
the user registry at verification time — in particular any token presented
while USERS_DB is still the empty dict, before lazy initialization — is
rejected with exactly the same credentials_exception as an invalid
token. -/
theorem unknown_subject_rejected (db : List (String × UserRec))
    (username role : String) (d : Option Nat) (now : Nat)
    (hl : db.lookup username = none) :
    get_current_user db now (create_access_token username role d now) =
      .error credentials_exception ∧
    get_current_user db now .malformed = .error credentials_exception := by
  constructor
  · by_cases h : now < now + d.getD (ACCESS_TOKEN_EXPIRE_MINUTES * 60) <;>
      simp [get_current_user, create_access_token, jwt_decode, h, hl]
  · rfl

/-- C10 witness: a fresh admin token presented against the
pre-initialization empty registry is rejected like a malformed token. -/
theorem unknown_subject_rejected_witness :
    (List.lookup "admin" ([] : List (String × UserRec)) = none) ∧
    (get_current_user [] 0 (create_access_token "admin" "admin" (some 1800) 0) =
        .error credentials_exception ∧
      get_current_user [] 0 .malformed = .error credentials_exception) :=
  ⟨rfl, unknown_subject_rejected [] "admin" "admin" (some 1800) 0 rfl⟩

/-- C1 (amended): for every registered service and supported method, the
transport failures map to distinct status codes — timeout to 504, connect
failure to 503, other transport error to 502, unanticipated exception to
500 — and the 503 detail carries the attempted URL under its separate url
key while its message names only the service. -/
theorem transport_failure_status_mapping (service base path method em : String)
    (hs : SERVICES.lookup service = some base)
    (hm : method = "GET" ∨ method = "POST" ∨ method = "PUT" ∨ method = "DELETE") :
    forward_request service path method .timeoutExc =
      (true, .httpError ⟨504, .obj [("error", .str "Gateway Timeout"),
        ("message", .str ("The " ++ service ++ " service did not respond in time")),
        ("service", .str service), ("timeout", .str "30 seconds")]⟩) ∧
    forward_request service path method .connectExc =
      (true, .httpError ⟨503, .obj [("error", .str "Service Unavailable"),
        ("message", .str ("Unable to connect to " ++ service ++
          " service. Please check if the service is running.")),
        ("service", .str service), ("url", .str (base ++ path))]⟩) ∧
    forward_request service path method (.requestExc em) =
      (true, .httpError ⟨502, .obj [("error", .str "Bad Gateway"),
        ("message", .str ("Error communicating with " ++ service ++ " service")),
        ("service", .str service), ("error_details", .str em)]⟩) ∧
    forward_request service path method .otherExc =
      (true, .httpError ⟨500, unexpectedDetail service⟩) := by
  unfold forward_request
  rw [hs]
  simp [if_pos hm]

/-- C1 witness: the four transport failures of a GET to the course service
produce 504, 503, 502 and 500 respectively. -/
theorem transport_failure_status_mapping_witness :
    SERVICES.lookup "course" = some "http://localhost:8002" ∧
    (forward_request "course" "/api/courses" "GET" .timeoutExc =
      (true, .httpError ⟨504, .obj [("error", .str "Gateway Timeout"),
        ("message", .str ("The " ++ "course" ++ " service did not respond in time")),
        ("service", .str "course"), ("timeout", .str "30 seconds")]⟩) ∧
    forward_request "course" "/api/courses" "GET" .connectExc =
      (true, .httpError ⟨503, .obj [("error", .str "Service Unavailable"),
        ("message", .str ("Unable to connect to " ++ "course" ++
          " service. Please check if the service is running.")),
        ("service", .str "course"),
        ("url", .str ("http://localhost:8002" ++ "/api/courses"))]⟩) ∧
    forward_request "course" "/api/courses" "GET" (.requestExc "boom") =
      (true, .httpError ⟨502, .obj [("error", .str "Bad Gateway"),
        ("message", .str ("Error communicating with " ++ "course" ++ " service")),
        ("service", .str "course"), ("error_details", .str "boom")]⟩) ∧
    forward_request "course" "/api/courses" "GET" .otherExc =
      (true, .httpError ⟨500, unexpectedDetail "course"⟩)) :=
  ⟨rfl, transport_failure_status_mapping "course" "http://localhost:8002"
    "/api/courses" "GET" "boom" rfl (Or.inl rfl)⟩

/-- C1 counterexample: on a connection failure to the course backend the
externally visible 503 body's message is the fixed sentence naming the
service, and no string anywhere in the rendered body contains the
attempted address (not even the substring localhost): the url field of the
internal exception detail is dropped by http_exception_handler. -/
theorem connect_failure_message_omits_url :
    forward_request "course" "/api/courses" "GET" .connectExc =
      (true, .httpError ⟨503, .obj [("error", .str "Service Unavailable"),
        ("message", .str "Unable to connect to course service. Please check if the service is running."),
        ("service", .str "course"),
        ("url", .str "http://localhost:8002/api/courses")]⟩) ∧
    http_exception_handler "/gateway/courses"
        ⟨503, .obj [("error", .str "Service Unavailable"),
          ("message", .str "Unable to connect to course service. Please check if the service is running."),
          ("service", .str "course"),
          ("url", .str "http://localhost:8002/api/courses")]⟩ =
      (503, .obj [("error", .str "Service Unavailable"),
        ("message", .str "Unable to connect to course service. Please check if the service is running."),
        ("status_code", .num 503),
        ("path", .str "/gateway/courses")]) ∧
    ((Json.obj [("error", .str "Service Unavailable"),
        ("message", .str "Unable to connect to course service. Please check if the service is running."),
        ("status_code", .num 503),
        ("path", .str "/gateway/courses")]).strings.all
      fun s => !(containsSubstr s "localhost")) = true :=
  ⟨rfl, rfl, rfl⟩

/-- C5 (amended): forwarding to an unregistered service performs no
network I/O and raises 404; the available-service list sits in the
internal exception detail, and the externally rendered body keeps only
error, message, status_code and path. -/
theorem unknown_service_404_no_io (service path method rpath : String)
    (t : TransportResult)
    (hs : SERVICES.lookup service = none) :
    forward_request service path method t =
      (false, .httpError ⟨404, .obj [("error", .str "Service Not Found"),
        ("message", .str ("The requested service '" ++ service ++ "' is not available")),
        ("available_services", .arr [.str "student", .str "course"])]⟩) ∧
    http_exception_handler rpath
        ⟨404, .obj [("error", .str "Service Not Found"),
          ("message", .str ("The requested service '" ++ service ++ "' is not available")),
          ("available_services", .arr [.str "student", .str "course"])]⟩ =
      (404, .obj [("error", .str "Service Not Found"),
        ("message", .str ("The requested service '" ++ service ++ "' is not available")),
        ("status_code", .num 404),
        ("path", .str rpath)]) := by
  constructor
  · unfold forward_request
    rw [hs]
    rfl
  · rfl

/-- C5 witness: forwarding to the unregistered service payments never
reaches the transport and renders the flattened 404 body. -/
theorem unknown_service_404_no_io_witness :
    SERVICES.lookup "payments" = none ∧
    (forward_request "payments" "/api/x" "DELETE" .otherExc =
      (false, .httpError ⟨404, .obj [("error", .str "Service Not Found"),
        ("message", .str ("The requested service '" ++ "payments" ++ "' is not available")),
        ("available_services", .arr [.str "student", .str "course"])]⟩) ∧
    http_exception_handler "/gateway/x"
        ⟨404, .obj [("error", .str "Service Not Found"),
          ("message", .str ("The requested service '" ++ "payments" ++ "' is not available")),
          ("available_services", .arr [.str "student", .str "course"])]⟩ =
      (404, .obj [("error", .str "Service Not Found"),
        ("message", .str ("The requested service '" ++ "payments" ++ "' is not available")),
        ("status_code", .num 404),
        ("path", .str "/gateway/x")])) :=
  ⟨rfl, unknown_service_404_no_io "payments" "/api/x" "DELETE" "/gateway/x" .otherExc rfl⟩

/-- C5 counterexample: for the unknown service payments the client's 404
body has only the four flattened keys and no string in it mentions either
available service name — the list never reaches the client. -/
theorem unknown_service_body_omits_service_list :
    forward_request "payments" "/api/x" "GET" .timeoutExc =
      (false, .httpError ⟨404, .obj [("error", .str "Service Not Found"),
        ("message", .str "The requested service 'payments' is not available"),
        ("available_services", .arr [.str "student", .str "course"])]⟩) ∧
    http_exception_handler "/gateway/x"
        ⟨404, .obj [("error", .str "Service Not Found"),
          ("message", .str "The requested service 'payments' is not available"),
          ("available_services", .arr [.str "student", .str "course"])]⟩ =
      (404, .obj [("error", .str "Service Not Found"),
        ("message", .str "The requested service 'payments' is not available"),
        ("status_code", .num 404),
        ("path", .str "/gateway/x")]) ∧
    ((Json.obj [("error", .str "Service Not Found"),
        ("message", .str "The requested service 'payments' is not available"),
        ("status_code", .num 404),
        ("path", .str "/gateway/x")]).strings.all
      fun s => !(containsSubstr s "student") && !(containsSubstr s "course")) = true :=
  ⟨rfl, rfl, rfl⟩

/-- C6 (amended): forwarding with a method outside GET, POST, PUT, DELETE
performs no network I/O and raises 405; the allowed-method list sits in
the internal exception detail, and the externally rendered body keeps
only error, message, status_code and path. -/
theorem unsupported_method_405_no_io (service base path method rpath : String)
    (t : TransportResult)
    (hs : SERVICES.lookup service = some base)
    (hm : ¬(method = "GET" ∨ method = "POST" ∨ method = "PUT" ∨ method = "DELETE")) :
    forward_request service path method t =
      (false, .httpError ⟨405, .obj [("error", .str "Method Not Allowed"),
        ("message", .str ("HTTP method '" ++ method ++ "' is not supported")),
        ("allowed_methods", .arr [.str "GET", .str "POST", .str "PUT", .str "DELETE"])]⟩) ∧
    http_exception_handler rpath
        ⟨405, .obj [("error", .str "Method Not Allowed"),
          ("message", .str ("HTTP method '" ++ method ++ "' is not supported")),
          ("allowed_methods", .arr [.str "GET", .str "POST", .str "PUT", .str "DELETE"])]⟩ =
      (405, .obj [("error", .str "Method Not Allowed"),
        ("message", .str ("HTTP method '" ++ method ++ "' is not supported")),
        ("status_code", .num 405),
        ("path", .str rpath)]) := by
  constructor
  · unfold forward_request
    rw [hs]
    simp [if_neg hm]
  · rfl

/-- C6 witness: a PATCH to the course service is rejected before any
outbound call with the flattened 405 body. -/
theorem unsupported_method_405_no_io_witness :
    (SERVICES.lookup "course" = some "http://localhost:8002" ∧
      ¬("PATCH" = "GET" ∨ "PATCH" = "POST" ∨ "PATCH" = "PUT" ∨ "PATCH" = "DELETE")) ∧
    (forward_request "course" "/api/courses" "PATCH" .timeoutExc =
      (false, .httpError ⟨405, .obj [("error", .str "Method Not Allowed"),
        ("message", .str ("HTTP method '" ++ "PATCH" ++ "' is not supported")),
        ("allowed_methods", .arr [.str "GET", .str "POST", .str "PUT", .str "DELETE"])]⟩) ∧
    http_exception_handler "/gateway/courses"
        ⟨405, .obj [("error", .str "Method Not Allowed"),
          ("message", .str ("HTTP method '" ++ "PATCH" ++ "' is not supported")),
          ("allowed_methods", .arr [.str "GET", .str "POST", .str "PUT", .str "DELETE"])]⟩ =
      (405, .obj [("error", .str "Method Not Allowed"),
        ("message", .str ("HTTP method '" ++ "PATCH" ++ "' is not supported")),
        ("status_code", .num 405),
        ("path", .str "/gateway/courses")])) :=
  ⟨⟨rfl, by decide⟩, unsupported_method_405_no_io "course" "http://localhost:8002"
    "/api/courses" "PATCH" "/gateway/courses" .timeoutExc rfl (by decide)⟩

/-- C6 counterexample: for method PATCH the client's 405 body has only the
four flattened keys and no string in it contains any of GET, POST, PUT or
DELETE — the allowed-method list never reaches the client. -/
theorem unsupported_method_body_omits_allowed_methods :
    forward_request "course" "/api/courses" "PATCH" .timeoutExc =
      (false, .httpError ⟨405, .obj [("error", .str "Method Not Allowed"),
        ("message", .str "HTTP method 'PATCH' is not supported"),
        ("allowed_methods", .arr [.str "GET", .str "POST", .str "PUT", .str "DELETE"])]⟩) ∧
    http_exception_handler "/gateway/courses"
        ⟨405, .obj [("error", .str "Method Not Allowed"),
          ("message", .str "HTTP method 'PATCH' is not supported"),
          ("allowed_methods", .arr [.str "GET", .str "POST", .str "PUT", .str "DELETE"])]⟩ =
      (405, .obj [("error", .str "Method Not Allowed"),
        ("message", .str "HTTP method 'PATCH' is not supported"),
        ("status_code", .num 405),
        ("path", .str "/gateway/courses")]) ∧
    ((Json.obj [("error", .str "Method Not Allowed"),
        ("message", .str "HTTP method 'PATCH' is not supported"),
        ("status_code", .num 405),
        ("path", .str "/gateway/courses")]).strings.all
      fun s => !(containsSubstr s "GET") && !(containsSubstr s "POST") &&
        !(containsSubstr s "PUT") && !(containsSubstr s "DELETE")) = true :=
  ⟨rfl, rfl, rfl⟩

/-- C7 (amended): for a registered service and supported method, a backend
response with status < 400 becomes Success with the status preserved and
the body parsed as JSON if possible, else wrapped (null when empty); a
response with status >= 400 whose body parses to a JSON object, or does
not parse at all, becomes a raised HTTPException with the backend status
preserved and the error/message/service/path detail; but a response with
status >= 400 whose body parses to non-object JSON trips the
error_detail.get AttributeError and surfaces as 500. -/
theorem backend_response_translation (service base path method : String)
    (rOk rErr rRaw rBad : BackendResponse)
    (fields : List (String × Json)) (j : Json)
    (hs : SERVICES.lookup service = some base)
    (hm : method = "GET" ∨ method = "POST" ∨ method = "PUT" ∨ method = "DELETE")
    (h1 : rOk.status < 400)
    (h2 : 400 ≤ rErr.status) (hj2 : rErr.json? = some (.obj fields))
    (h3 : 400 ≤ rRaw.status) (hj3 : rRaw.json? = none)
    (h4 : 400 ≤ rBad.status) (hj4 : rBad.json? = some j) (hnb : j.isObj = false) :
    forward_request service path method (.ok rOk) =
      (true, .success rOk.status
        (if rOk.text = "" then .null
         else match rOk.json? with
           | some x => x
           | none => .obj [("raw", .str rOk.text)])) ∧
    forward_request service path method (.ok rErr) =
      (true, .httpError ⟨rErr.status,
        .obj [("error", .str ("Service Error (" ++ toString rErr.status ++ ")")),
              ("message", (fields.lookup "detail").getD
                (.str "An error occurred in the microservice")),
              ("service", .str service), ("path", .str path)]⟩) ∧
    forward_request service path method (.ok rRaw) =
      (true, .httpError ⟨rRaw.status,
        .obj [("error", .str ("Service Error (" ++ toString rRaw.status ++ ")")),
              ("message", .str (if rRaw.text = "" then "Unknown error" else rRaw.text)),
              ("service", .str service), ("path", .str path)]⟩) ∧
    forward_request service path method (.ok rBad) =
      (true, .httpError ⟨500, unexpectedDetail service⟩) := by
  unfold forward_request
  rw [hs]
  simp only [if_pos hm]
  refine ⟨?_, ?_, ?_, ?_⟩
  · rw [if_neg (by omega : ¬ rOk.status ≥ 400)]
  · rw [if_pos (by omega : rErr.status ≥ 400), hj2]
  · rw [if_pos (by omega : rRaw.status ≥ 400), hj3]
    rfl
  · rw [if_pos (by omega : rBad.status ≥ 400), hj4]
    cases j <;> simp_all [Json.isObj]

/-- C7 witness: concrete course-service responses — a 200 JSON array, a
404 object body, a 500 plain-text body, and a 422 non-object JSON body
(which surfaces as 500). -/
theorem backend_response_translation_witness :
    (SERVICES.lookup "course" = some "http://localhost:8002" ∧ (200 : Nat) < 400 ∧
      (404 : Nat) ≥ 400 ∧ (500 : Nat) ≥ 400 ∧ (422 : Nat) ≥ 400) ∧
    (forward_request "course" "/api/courses" "GET"
        (.ok ⟨200, "[1]", some (.arr [.num 1])⟩) =
      (true, .success 200
        (if "[1]" = "" then .null
         else match some (Json.arr [.num 1]) with
           | some x => x
           | none => .obj [("raw", .str "[1]")])) ∧
    forward_request "course" "/api/courses" "GET"
        (.ok ⟨404, "\x7b\"detail\": \"Course not found\"\x7d",
          some (.obj [("detail", .str "Course not found")])⟩) =
      (true, .httpError ⟨404,
        .obj [("error", .str ("Service Error (" ++ toString (404 : Nat) ++ ")")),
              ("message", ([("detail", Json.str "Course not found")].lookup "detail").getD
                (.str "An error occurred in the microservice")),
              ("service", .str "course"), ("path", .str "/api/courses")]⟩) ∧
    forward_request "course" "/api/courses" "GET"
        (.ok ⟨500, "Internal Server Error", none⟩) =
      (true, .httpError ⟨500,
        .obj [("error", .str ("Service Error (" ++ toString (500 : Nat) ++ ")")),
              ("message", .str (if "Internal Server Error" = "" then "Unknown error"
                else "Internal Server Error")),
              ("service", .str "course"), ("path", .str "/api/courses")]⟩) ∧
    forward_request "course" "/api/courses" "GET"
        (.ok ⟨422, "[1, 2]", some (.arr [.num 1, .num 2])⟩) =
      (true, .httpError ⟨500, unexpectedDetail "course"⟩)) :=
  ⟨⟨rfl, by decide, by decide, by decide, by decide⟩,
    backend_response_translation "course" "http://localhost:8002" "/api/courses" "GET"
      ⟨200, "[1]", some (.arr [.num 1])⟩
      ⟨404, "\x7b\"detail\": \"Course not found\"\x7d", some (.obj [("detail", .str "Course not found")])⟩
      ⟨500, "Internal Server Error", none⟩
      ⟨422, "[1, 2]", some (.arr [.num 1, .num 2])⟩
      [("detail", .str "Course not found")] (.arr [.num 1, .num 2])
      rfl (Or.inl rfl) (by decide) (by decide) rfl (by decide) rfl (by decide) rfl rfl⟩

/-- C7 counterexample: a backend 404 whose body is the non-object JSON
value [1, 2] does not keep its status — the gateway responds 500 with the
generic internal-error detail, so the backend status is not preserved
verbatim for every possible backend body. -/
theorem backend_nonobject_json_error_status_not_preserved :
    forward_request "course" "/api/courses/9" "GET"
        (.ok ⟨404, "[1, 2]", some (.arr [.num 1, .num 2])⟩) =
      (true, .httpError ⟨500, unexpectedDetail "course"⟩) ∧
    http_exception_handler "/gateway/courses/9" ⟨500, unexpectedDetail "course"⟩ =
      (500, .obj [("error", .str "Internal Server Error"),
        ("message", .str "An unexpected error occurred while processing your request"),
        ("status_code", .num 500),
        ("path", .str "/gateway/courses/9")]) ∧
    ((500 : Nat) = 404 → False) :=
  ⟨rfl, rfl, by decide⟩

/-- C8 (amended): every failure the gateway produces — any HTTPException
raised by forward_request, the login failure, the token verification
failure, and the catch-all handler's response — renders through the
exception handlers to a JSON body with exactly the keys error (a string),
message, status_code (the response status) and path (the request path).
The message key may carry a non-string JSON value passed through from a
backend error body. -/
theorem error_body_shape (s p m path : String) (t : TransportResult)
    (b : Bool) (e : HTTPErr)
    (hfwd : forward_request s p m t = (b, .httpError e)) :
    shapeOK path (http_exception_handler path e) = true ∧
    shapeOK path (http_exception_handler path login_failed_error) = true ∧
    shapeOK path (http_exception_handler path credentials_exception) = true ∧
    shapeOK path (general_exception_handler path) = true := by
  refine ⟨?_, ?_, ?_, ?_⟩
  · unfold forward_request at hfwd
    repeat' split at hfwd
    all_goals try (dsimp only at hfwd; repeat' split at hfwd)
    all_goals
      first
      | (injection hfwd with h1 h2
         first
         | (injection h2 with h3
            subst h3
            simp [shapeOK, http_exception_handler, unexpectedDetail, List.lookup])
         | injection h2)
  · simp [shapeOK, http_exception_handler, login_failed_error, List.lookup]
  · simp [shapeOK, http_exception_handler, credentials_exception]
  · simp [shapeOK, general_exception_handler]

/-- C8 witness: the 503 connect-failure exception, the login failure, the
credentials failure and the catch-all handler all render with the
four-key shape at a concrete path. -/
theorem error_body_shape_witness :
    forward_request "course" "/api/courses" "GET" .connectExc =
      (true, .httpError ⟨503, .obj [("error", .str "Service Unavailable"),
        ("message", .str "Unable to connect to course service. Please check if the service is running."),
        ("service", .str "course"),
        ("url", .str "http://localhost:8002/api/courses")]⟩) ∧
    (shapeOK "/gateway/courses" (http_exception_handler "/gateway/courses"
        ⟨503, .obj [("error", .str "Service Unavailable"),
          ("message", .str "Unable to connect to course service. Please check if the service is running."),
          ("service", .str "course"),
          ("url", .str "http://localhost:8002/api/courses")]⟩) = true ∧
      shapeOK "/gateway/courses" (http_exception_handler "/gateway/courses" login_failed_error) = true ∧
      shapeOK "/gateway/courses" (http_exception_handler "/gateway/courses" credentials_exception) = true ∧
      shapeOK "/gateway/courses" (general_exception_handler "/gateway/courses") = true) :=
  ⟨rfl, error_body_shape "course" "/api/courses" "GET" "/gateway/courses" .connectExc
    true ⟨503, .obj [("error", .str "Service Unavailable"),
      ("message", .str "Unable to connect to course service. Please check if the service is running."),
      ("service", .str "course"),
      ("url", .str "http://localhost:8002/api/courses")]⟩ rfl⟩

/-- C8 counterexample: a backend 422 whose JSON body is the object with
detail = [42] yields a gateway body whose message key is the JSON array
[42], not a string — the claimed shape message: string does not hold for
every failure. -/
theorem error_body_message_not_string :
    forward_request "course" "/api/courses" "GET"
        (.ok ⟨422, "\x7b\"detail\": [42]\x7d", some (.obj [("detail", .arr [.num 42])])⟩) =
      (true, .httpError ⟨422, .obj [("error", .str "Service Error (422)"),
        ("message", .arr [.num 42]),
        ("service", .str "course"), ("path", .str "/api/courses")]⟩) ∧
    (http_exception_handler "/gateway/courses"
        ⟨422, .obj [("error", .str "Service Error (422)"),
          ("message", .arr [.num 42]),
          ("service", .str "course"), ("path", .str "/api/courses")]⟩).2.get?
      "message" = some (.arr [.num 42]) ∧
    (Json.arr [.num 42]).isStr = false :=
  ⟨rfl, rfl, rfl⟩

/-- C9: the logging middleware returns exactly what the inner pipeline
produced — the response unchanged on success, and the same exception
re-raised on failure; it only accumulates log events on the side. -/
theorem middleware_preserves_result (startTime endTime : Nat) (req : Request)
    (call_next : Request → Except String Response) :
    (LoggingMiddleware.dispatch startTime endTime req call_next).2 = call_next req := by
  unfold LoggingMiddleware.dispatch
  cases call_next req <;> simp

end Gateway
